import Mathlib

/-!
Verification of the contractor-management MCP server core (`src/tools.ts`,
schema from `src/db.ts`), shallowly embedded in Lean.

The store is modelled as lists of typed rows (one list per table); each
tool function is translated into a pure Lean function over that store.
PostgreSQL's driver boundary (the `pg` package hands numeric columns back
as text) is modelled explicitly: table rows hold the true numeric values,
`intRender` / `ratingRender` produce the driver's textual form, and
`jsParseIntStr` / `jsParseFloatStr` model JavaScript's `parseInt` /
`parseFloat` that `tools.ts` applies at every boundary crossing.
JavaScript truthiness tests (`if (params.x)`, `x || y`) are modelled by
the `optStrTruthy` / `optIntTruthy` / `jsStrOrNull` / `jsIntOrNull` /
`jsLimit` helpers.
-/

/-- A JavaScript number: either NaN or an actual rational value. -/
inductive JsNumber where
  | nan : JsNumber
  | num : Rat → JsNumber
deriving DecidableEq, Repr

/-- JS truthiness of an optional string (`undefined` and `""` are falsy). -/
def optStrTruthy : Option String → Bool
  | some s => s != ""
  | none => false

/-- JS truthiness of an optional number (`undefined` and `0` are falsy; NaN
does not arise for the integer-typed parameters modelled here). -/
def optIntTruthy : Option Int → Bool
  | some v => v != 0
  | none => false

/-- JS truthiness of an optional array combined with a length check, as in
`params.certifications && params.certifications.length > 0`. -/
def optArrTruthy : Option (List String) → Bool
  | some l => l.length > 0
  | none => false

/-- Models the JS expression `x || null` for an optional string argument:
an absent or empty string becomes SQL NULL. -/
def jsStrOrNull : Option String → Option String
  | some s => if s != "" then some s else none
  | none => none

/-- Models the JS expression `x || null` for an optional number argument:
an absent or zero value becomes SQL NULL. -/
def jsIntOrNull : Option Int → Option Int
  | some v => if v != 0 then some v else none
  | none => none

/-- Models the JS expression `params.limit || d` (default page size): an
absent or zero limit falls back to the default `d`. -/
def jsLimit (limit : Option Int) (d : Int) : Int :=
  match limit with
  | some v => if v != 0 then v else d
  | none => d

/-- ASCII lower-casing of one character, as both SQL `LOWER` and JS
`toLowerCase` behave on the ASCII range used by this data set. -/
def lowerChar (c : Char) : Char :=
  if 65 ≤ c.toNat && c.toNat ≤ 90 then Char.ofNat (c.toNat + 32) else c

/-- ASCII lower-casing of a string (SQL `LOWER`). -/
def lowerStr (s : String) : String :=
  String.mk (s.data.map lowerChar)

/-- Does `hay` start with `pat` (character-wise)? -/
def leadsWith : List Char → List Char → Bool
  | _, [] => true
  | [], _ :: _ => false
  | a :: as, b :: bs => a == b && leadsWith as bs

/-- Does `pat` occur contiguously inside `hay`? Models SQL
`LIKE` with a `%pat%` pattern. -/
def hasSub : List Char → List Char → Bool
  | [], pat => pat.isEmpty
  | a :: as, pat => leadsWith (a :: as) pat || hasSub as pat

/-- Case-insensitive substring test: models
`LOWER(field) LIKE LOWER(pattern)` for a `%q%` pattern. -/
def likeContains (field q : String) : Bool :=
  hasSub (lowerStr field).data (lowerStr q).data

/-- Do two string arrays share at least one element? Models the PostgreSQL
array-overlap operator `&&`. -/
def arrOverlap (a b : List String) : Bool :=
  a.any (fun x => b.contains x)

/-! ### Decimal rendering and parsing at the driver boundary -/

/-- The decimal digit character for `d < 10` (`_` is unreachable for valid
digits). -/
def digitChar : Nat → Char
  | 0 => '0' | 1 => '1' | 2 => '2' | 3 => '3' | 4 => '4'
  | 5 => '5' | 6 => '6' | 7 => '7' | 8 => '8' | _ => '9'

/-- Big-endian decimal digit characters of `n`, fuel-structured so the
kernel can evaluate it (the fuel is an upper bound on the digit count). -/
def natCharsAux : Nat → Nat → List Char
  | 0, _ => []
  | _ + 1, 0 => []
  | fuel + 1, n + 1 => natCharsAux fuel ((n + 1) / 10) ++ [digitChar ((n + 1) % 10)]

/-- Big-endian decimal digit characters of a natural number. -/
def natChars (n : Nat) : List Char :=
  if n = 0 then ['0'] else natCharsAux n n

/-- PostgreSQL's canonical text rendering of a non-negative integer. -/
def natRender (n : Nat) : String :=
  String.mk (natChars n)

/-- PostgreSQL's canonical text rendering of an INTEGER column value. -/
def intRender (i : Int) : String :=
  if i < 0 then String.mk ('-' :: natChars i.natAbs) else String.mk (natChars i.natAbs)

/-- The longest leading run of decimal digits, as digit values. -/
def digitsLead : List Char → List Nat
  | [] => []
  | c :: cs => if 48 ≤ c.toNat && c.toNat ≤ 57 then (c.toNat - 48) :: digitsLead cs else []

/-- Value of a big-endian digit list. -/
def ofBig (ds : List Nat) : Nat :=
  ds.foldl (fun a d => a * 10 + d) 0

/-- Shared tail of `jsParseIntStr`: parse a leading digit run, negate when
`neg` is set, NaN when no digits lead. -/
def parseDigitsRun (cs : List Char) (neg : Bool) : JsNumber :=
  let ds := digitsLead cs
  if ds.isEmpty then .nan
  else .num (mkRat (if neg then -(ofBig ds : Int) else (ofBig ds : Int)) 1)

/-- Models JS `parseInt(s, 10)`: an optional leading minus sign followed by
a digit run; NaN when no digits lead. -/
def jsParseIntStr (s : String) : JsNumber :=
  match s.data with
  | [] => .nan
  | c :: cs => if c == '-' then parseDigitsRun cs true else parseDigitsRun (c :: cs) false

/-- Models JS `parseFloat(s)` on the decimal shapes PostgreSQL emits for
NUMERIC columns: digits, optionally followed by a point and more digits. -/
def jsParseFloatStr (s : String) : JsNumber :=
  let cs := s.data
  let ds1 := digitsLead cs
  match cs.drop ds1.length with
  | '.' :: r2 =>
    let ds2 := digitsLead r2
    if ds1.isEmpty && ds2.isEmpty then .nan
    else .num (mkRat (ofBig ds1 * 10 ^ ds2.length + ofBig ds2) (10 ^ ds2.length))
  | _ => if ds1.isEmpty then .nan else .num (mkRat (ofBig ds1 : Int) 1)

/-- A NUMERIC(2,1) rating stored in tenths: values 0.0 through 9.9. -/
abbrev Rating := Fin 100

/-- Numeric value of a stored rating (tenths). -/
def ratingVal (r : Rating) : Rat :=
  mkRat r.val 10

/-- PostgreSQL's text rendering of a NUMERIC(2,1) value (`d.d`). -/
def ratingRender (r : Rating) : String :=
  natRender (r.val / 10) ++ "." ++ natRender (r.val % 10)

/-! #### Round-trip lemmas for the boundary coercion -/

theorem natCharsAux_eq (fuel : Nat) :
    ∀ n, n ≤ fuel → natCharsAux fuel n = ((Nat.digits 10 n).reverse.map digitChar) := by
  induction fuel with
  | zero =>
    intro n hn
    have : n = 0 := Nat.le_zero.mp hn
    subst this
    simp [natCharsAux]
  | succ f ih =>
    intro n hn
    match n with
    | 0 => simp [natCharsAux]
    | m + 1 =>
      have hdiv : (m + 1) / 10 ≤ f := by
        have h1 : (m + 1) / 10 < m + 1 := Nat.div_lt_self (Nat.succ_pos m) (by norm_num)
        omega
      rw [natCharsAux, ih _ hdiv, Nat.digits_def' (by norm_num : 1 < 10) (Nat.succ_pos m)]
      simp

theorem natChars_eq (n : Nat) :
    natChars n = if n = 0 then ['0'] else ((Nat.digits 10 n).reverse.map digitChar) := by
  by_cases h : n = 0
  · simp [natChars, h]
  · simp only [natChars, if_neg h]
    exact natCharsAux_eq n n le_rfl

theorem digitChar_val (d : Nat) (h : d < 10) :
    (48 ≤ (digitChar d).toNat && (digitChar d).toNat ≤ 57) = true ∧
      (digitChar d).toNat - 48 = d := by
  revert h
  revert d
  decide

theorem digitsLead_map (l : List Nat) (h : ∀ d ∈ l, d < 10) :
    digitsLead (l.map digitChar) = l := by
  induction l with
  | nil => rfl
  | cons d t ih =>
    have hd : d < 10 := h d (List.mem_cons_self d t)
    have ht : ∀ x ∈ t, x < 10 := fun x hx => h x (List.mem_cons_of_mem d hx)
    simp only [List.map_cons, digitsLead]
    rw [(digitChar_val d hd).1]
    simp only [if_true, (digitChar_val d hd).2, ih ht]

theorem foldl_reverse_digits (l : List Nat) (a : Nat) :
    (l.reverse).foldl (fun x d => x * 10 + d) a = a * 10 ^ l.length + Nat.ofDigits 10 l := by
  induction l generalizing a with
  | nil => simp [Nat.ofDigits]
  | cons d t ih =>
    simp only [List.reverse_cons, List.foldl_append, List.foldl_cons, List.foldl_nil,
      Nat.ofDigits_cons, List.length_cons, ih]
    ring

theorem ofBig_digits (n : Nat) :
    ofBig ((Nat.digits 10 n).reverse) = n := by
  have := foldl_reverse_digits (Nat.digits 10 n) 0
  simp only [ofBig, this, Nat.zero_mul, Nat.zero_add]
  exact Nat.ofDigits_digits 10 n

theorem digitsLead_natChars (n : Nat) :
    digitsLead (natChars n) = (if n = 0 then [0] else (Nat.digits 10 n).reverse) ∧
      digitsLead (natChars n) ≠ [] := by
  by_cases h : n = 0
  · subst h
    refine ⟨?_, ?_⟩ <;> decide
  · have hd : ∀ d ∈ (Nat.digits 10 n).reverse, d < 10 := by
      intro d hdm
      exact Nat.digits_lt_base (by norm_num) (List.mem_reverse.mp hdm)
    have hne : Nat.digits 10 n ≠ [] := Nat.digits_ne_nil_iff_ne_zero.mpr h
    rw [natChars_eq, if_neg h]
    refine ⟨?_, ?_⟩
    · rw [if_neg h]
      exact digitsLead_map _ hd
    · rw [digitsLead_map _ hd]
      simpa using hne

theorem ofBig_natChars (n : Nat) :
    ofBig (digitsLead (natChars n)) = n := by
  rcases digitsLead_natChars n with ⟨heq, -⟩
  by_cases h : n = 0
  · subst h; rw [heq]; rfl
  · rw [heq, if_neg h, ofBig_digits]

theorem parseDigitsRun_natChars (n : Nat) (neg : Bool) :
    parseDigitsRun (natChars n) neg =
      .num (mkRat (if neg then -(n : Int) else (n : Int)) 1) := by
  have hne := (digitsLead_natChars n).2
  have hval := ofBig_natChars n
  simp only [parseDigitsRun]
  rw [if_neg (by simpa [List.isEmpty_iff] using hne), hval]

theorem natChars_head_digit (n : Nat) :
    ∃ c cs, natChars n = c :: cs ∧ (48 ≤ c.toNat && c.toNat ≤ 57) = true := by
  by_cases h : n = 0
  · subst h; exact ⟨'0', [], rfl, by decide⟩
  · have hne : Nat.digits 10 n ≠ [] := Nat.digits_ne_nil_iff_ne_zero.mpr h
    rcases hrev : (Nat.digits 10 n).reverse with _ | ⟨d, t⟩
    · exact absurd (by simpa using hrev) hne
    · have hd : d < 10 := by
        have hmem : d ∈ (Nat.digits 10 n).reverse := by
          rw [hrev]; exact List.mem_cons_self d t
        exact Nat.digits_lt_base (by norm_num) (List.mem_reverse.mp hmem)
      refine ⟨digitChar d, t.map digitChar, ?_, (digitChar_val d hd).1⟩
      rw [natChars_eq, if_neg h, hrev, List.map_cons]

theorem jsParseIntStr_natRender (n : Nat) :
    jsParseIntStr (natRender n) = .num (mkRat (n : Int) 1) := by
  rcases natChars_head_digit n with ⟨c, cs, hcons, hdig⟩
  have h48 : 48 ≤ c.toNat := by
    have h := hdig
    simp only [Bool.and_eq_true, decide_eq_true_eq] at h
    exact h.1
  have hnotminus : (c == '-') = false := by
    apply beq_eq_false_iff_ne.mpr
    intro hc
    subst hc
    exact absurd h48 (by decide)
  have hdata : (natRender n).data = c :: cs := by
    simp only [natRender, hcons]
  have hrun : parseDigitsRun (c :: cs) false = .num (mkRat (n : Int) 1) := by
    rw [← hcons, parseDigitsRun_natChars]
    norm_num
  simp only [jsParseIntStr, hdata, hnotminus, Bool.false_eq_true, if_false, hrun]

theorem jsParseIntStr_intRender (i : Int) :
    jsParseIntStr (intRender i) = .num (mkRat i 1) := by
  by_cases h : i < 0
  · have habs : -(i.natAbs : Int) = i := by omega
    have hdata : (intRender i).data = '-' :: natChars i.natAbs := by
      simp only [intRender, if_pos h]
    simp only [jsParseIntStr, hdata, beq_self_eq_true, if_true,
      parseDigitsRun_natChars, habs]
  · have habs : (i.natAbs : Int) = i := by omega
    have hdata : intRender i = natRender i.natAbs := by
      simp only [intRender, if_neg h, natRender]
    rw [hdata, jsParseIntStr_natRender, habs]

theorem jsParseFloatStr_ratingRender (r : Rating) :
    jsParseFloatStr (ratingRender r) = .num (ratingVal r) := by
  revert r
  decide

/-! ### The dynamic query builder (deep embedding of the SQL text)

`searchContractors` in `tools.ts` accumulates `conditions: string[]`,
`values: any[]` and a running `paramIndex`. Each optional filter, when
(JS-truthily) present, pushes one condition template mentioning the next
placeholder and one bound value. This is embedded as a fold over
`FilterStep`s, in the exact source order. -/

/-- A value passed to the store exclusively through the bound-parameter
list (`pool.query(text, values)`), never through the query text. -/
inductive SqlValue where
  | s : String → SqlValue
  | n : Int → SqlValue
  | arr : List String → SqlValue
deriving DecidableEq, Repr

/-- The placeholder `$i` of the store's binding convention. -/
def ph (i : Nat) : String :=
  "$" ++ natRender i

/-- Accumulator of the builder: condition texts, bound values, and the
next parameter index (`paramIndex` starts at 1 in the source). -/
structure Build where
  conds : List String
  vals : List SqlValue
  idx : Nat
deriving DecidableEq, Repr

/-- One optional filter: whether it is present (JS truthiness of the
argument), the condition-text template, and the value that gets bound. -/
structure FilterStep where
  present : Bool
  tmpl : Nat → String
  value : SqlValue

/-- Run the builder from a given accumulator. -/
def runStepsFrom (b : Build) (steps : List FilterStep) : Build :=
  steps.foldl
    (fun b st =>
      if st.present then ⟨b.conds ++ [st.tmpl b.idx], b.vals ++ [st.value], b.idx + 1⟩ else b)
    b

/-- Run the builder from the empty accumulator (`paramIndex = 1`). -/
def runSteps (steps : List FilterStep) : Build :=
  runStepsFrom ⟨[], [], 1⟩ steps

theorem runStepsFrom_text_determined :
    ∀ (steps1 steps2 : List FilterStep) (b1 b2 : Build),
      b1.conds = b2.conds → b1.idx = b2.idx →
      steps1.map FilterStep.present = steps2.map FilterStep.present →
      steps1.map FilterStep.tmpl = steps2.map FilterStep.tmpl →
      (runStepsFrom b1 steps1).conds = (runStepsFrom b2 steps2).conds ∧
        (runStepsFrom b1 steps1).idx = (runStepsFrom b2 steps2).idx := by
  intro steps1
  induction steps1 with
  | nil =>
    intro steps2 b1 b2 hc hi hp _
    have : steps2 = [] := by
      cases steps2 with
      | nil => rfl
      | cons _ _ => simp at hp
    subst this
    exact ⟨hc, hi⟩
  | cons st1 t1 ih =>
    intro steps2 b1 b2 hc hi hp ht
    cases steps2 with
    | nil => simp at hp
    | cons st2 t2 =>
      simp only [List.map_cons, List.cons.injEq] at hp ht
      have step1 : runStepsFrom b1 (st1 :: t1) = runStepsFrom
          (if st1.present then ⟨b1.conds ++ [st1.tmpl b1.idx], b1.vals ++ [st1.value], b1.idx + 1⟩
            else b1) t1 := rfl
      have step2 : runStepsFrom b2 (st2 :: t2) = runStepsFrom
          (if st2.present then ⟨b2.conds ++ [st2.tmpl b2.idx], b2.vals ++ [st2.value], b2.idx + 1⟩
            else b2) t2 := rfl
      rw [step1, step2]
      refine ih t2 _ _ ?_ ?_ hp.2 ht.2
      · rw [hp.1, ht.1]
        by_cases h : st2.present <;> simp [h, hc, hi]
      · rw [hp.1]
        by_cases h : st2.present <;> simp [h, hi]

theorem runStepsFrom_vals (steps : List FilterStep) :
    ∀ b : Build,
      (runStepsFrom b steps).vals =
        b.vals ++ (steps.filter FilterStep.present).map FilterStep.value := by
  induction steps with
  | nil => intro b; simp [runStepsFrom]
  | cons st t ih =>
    intro b
    show (runStepsFrom (if st.present then _ else b) t).vals = _
    by_cases h : st.present <;>
      simp [h, ih, List.filter_cons, List.append_assoc]

/-- Arguments of `searchContractors` (`SearchParams` in the source);
`none` models an omitted argument. -/
structure SearchParams where
  query : Option String := none
  location : Option String := none
  availability : Option String := none
  certifications : Option (List String) := none
  max_rate : Option Int := none
  sector : Option String := none
  skills : Option (List String) := none
  min_experience : Option Int := none
  clearance : Option String := none
  limit : Option Int := none

/-- Truthiness of the availability filter, which additionally treats the
sentinel `"any"` as "no filter"
(`params.availability && params.availability !== "any"`). -/
def availTruthy : Option String → Bool
  | some s => s != "" && s != "any"
  | none => false

/-- The free-text condition template of the `query` filter, verbatim from
the source (one placeholder mentioned four times, one bound value). -/
def queryTmpl (i : Nat) : String :=
  "(\n      LOWER(name) LIKE LOWER(" ++ ph i ++ ") OR\n      LOWER(title) LIKE LOWER(" ++
    ph i ++ ") OR\n      LOWER(COALESCE(bio, '')) LIKE LOWER(" ++ ph i ++
    ") OR\n      EXISTS (SELECT 1 FROM unnest(skills) s WHERE LOWER(s) LIKE LOWER(" ++
    ph i ++ "))\n    )"

/-- The nine optional filters of `searchContractors`, in source order:
location, availability, certifications, skills, max_rate, sector,
min_experience, clearance, query. -/
def searchSteps (p : SearchParams) : List FilterStep :=
  [ ⟨optStrTruthy p.location, fun i => "LOWER(location) = LOWER(" ++ ph i ++ ")",
      .s (p.location.getD "")⟩,
    ⟨availTruthy p.availability, fun i => "availability = " ++ ph i,
      .s (p.availability.getD "")⟩,
    ⟨optArrTruthy p.certifications, fun i => "certifications && " ++ ph i,
      .arr (p.certifications.getD [])⟩,
    ⟨optArrTruthy p.skills, fun i => "skills && " ++ ph i,
      .arr (p.skills.getD [])⟩,
    ⟨optIntTruthy p.max_rate, fun i => "day_rate <= " ++ ph i,
      .n (p.max_rate.getD 0)⟩,
    ⟨optStrTruthy p.sector, fun i => ph i ++ " = ANY(sectors)",
      .s (p.sector.getD "")⟩,
    ⟨optIntTruthy p.min_experience, fun i => "years_experience >= " ++ ph i,
      .n (p.min_experience.getD 0)⟩,
    ⟨optStrTruthy p.clearance, fun i => "security_clearance = " ++ ph i,
      .s (p.clearance.getD "")⟩,
    ⟨optStrTruthy p.query, queryTmpl,
      .s ("%" ++ p.query.getD "" ++ "%")⟩ ]

/-- `WHERE …` when any condition is present, `""` otherwise
(`conditions.length > 0 ? \x60WHERE …\x60 : ""`). -/
def whereClauseOf (conds : List String) : String :=
  if conds.length > 0 then "WHERE " ++ String.intercalate " AND " conds else ""

/-- The text of the COUNT query of `searchContractors`. -/
def searchCountQuery (p : SearchParams) : String :=
  "SELECT COUNT(*) as total FROM contractors " ++
    whereClauseOf (runSteps (searchSteps p)).conds

/-- The text of the data query of `searchContractors` (verbatim template,
including the trailing `LIMIT` placeholder). -/
def searchDataQuery (p : SearchParams) : String :=
  let b := runSteps (searchSteps p)
  "\n    SELECT id, name, initials, title, bio, location, day_rate, years_experience,\n           availability, available_from, certifications, sectors, skills,\n           rating, review_count, placement_count, security_clearance, email, linkedin_url\n    FROM contractors\n    " ++
    whereClauseOf b.conds ++
    "\n    ORDER BY rating DESC NULLS LAST, review_count DESC\n    LIMIT " ++
    ph b.idx ++ "\n  "

/-- The bound-value list handed to the store by `searchContractors`
(filter values in push order, then the limit). -/
def searchValues (p : SearchParams) : List SqlValue :=
  (runSteps (searchSteps p)).vals ++ [.n (jsLimit p.limit 10)]

/-- Which of the nine optional filters are (JS-truthily) present. -/
structure SearchProfile where
  location : Bool
  availability : Bool
  certifications : Bool
  skills : Bool
  max_rate : Bool
  sector : Bool
  min_experience : Bool
  clearance : Bool
  query : Bool
deriving DecidableEq, Repr

/-- The presence profile of a `searchContractors` input. -/
def searchProfile (p : SearchParams) : SearchProfile :=
  ⟨optStrTruthy p.location, availTruthy p.availability, optArrTruthy p.certifications,
    optArrTruthy p.skills, optIntTruthy p.max_rate, optStrTruthy p.sector,
    optIntTruthy p.min_experience, optStrTruthy p.clearance, optStrTruthy p.query⟩

theorem searchSteps_present_of_profile {p1 p2 : SearchParams}
    (h : searchProfile p1 = searchProfile p2) :
    (searchSteps p1).map FilterStep.present = (searchSteps p2).map FilterStep.present := by
  have h1 := congrArg SearchProfile.location h
  have h2 := congrArg SearchProfile.availability h
  have h3 := congrArg SearchProfile.certifications h
  have h4 := congrArg SearchProfile.skills h
  have h5 := congrArg SearchProfile.max_rate h
  have h6 := congrArg SearchProfile.sector h
  have h7 := congrArg SearchProfile.min_experience h
  have h8 := congrArg SearchProfile.clearance h
  have h9 := congrArg SearchProfile.query h
  simp only [searchProfile] at h1 h2 h3 h4 h5 h6 h7 h8 h9
  simp only [searchSteps, List.map_cons, List.map_nil, h1, h2, h3, h4, h5, h6, h7, h8, h9]

theorem searchQueryText_profile_determined {p1 p2 : SearchParams}
    (h : searchProfile p1 = searchProfile p2) :
    searchCountQuery p1 = searchCountQuery p2 ∧ searchDataQuery p1 = searchDataQuery p2 := by
  have hpres := searchSteps_present_of_profile h
  have htmpl : (searchSteps p1).map FilterStep.tmpl = (searchSteps p2).map FilterStep.tmpl := by
    simp only [searchSteps, List.map_cons, List.map_nil]
  have := runStepsFrom_text_determined (searchSteps p1) (searchSteps p2)
    ⟨[], [], 1⟩ ⟨[], [], 1⟩ rfl rfl hpres htmpl
  constructor
  · simp only [searchCountQuery, runSteps, this.1]
  · simp only [searchDataQuery, runSteps, this.1, this.2]

theorem searchValues_eq (p : SearchParams) :
    searchValues p =
      ((searchSteps p).filter FilterStep.present).map FilterStep.value ++
        [.n (jsLimit p.limit 10)] := by
  simp only [searchValues, runSteps, runStepsFrom_vals, List.nil_append]

/-! ### Data model (tables from `db.ts` / `migrations`)

Table rows hold the true column values (INTEGER as `Int`, NUMERIC(2,1) as
`Rating`, nullable columns as `Option`); timestamps are abstract `Int`
instants. -/

/-- A row of the `contractors` table. -/
structure Contractor where
  id : String := ""
  name : String := ""
  initials : String := ""
  title : String := ""
  bio : Option String := none
  location : String := ""
  day_rate : Int := 0
  years_experience : Int := 0
  availability : String := "available"
  available_from : Option String := none
  certifications : List String := []
  sectors : List String := []
  skills : List String := []
  rating : Option Rating := none
  review_count : Int := 0
  placement_count : Int := 0
  security_clearance : Option String := none
  email : Option String := none
  phone : Option String := none
  linkedin_url : Option String := none
  education : List String := []
  work_history : List String := []
  notable_projects : List String := []
  languages : List String := []
  created_at : Int := 0
deriving DecidableEq, Repr

/-- A row of the `jobs` table. -/
structure Job where
  id : String := ""
  title : String := ""
  client_name : String := ""
  description : String := ""
  location : String := ""
  remote_option : String := "hybrid"
  day_rate_min : Option Int := none
  day_rate_max : Option Int := none
  duration_weeks : Option Int := none
  start_date : Option String := none
  required_certifications : List String := []
  required_skills : List String := []
  required_clearance : Option String := none
  sector : Option String := none
  experience_min : Option Int := none
  status : String := "open"
  urgency : String := "normal"
  notes : Option String := none
  created_at : Int := 0
deriving DecidableEq, Repr

/-- A row of the `shortlists` table. -/
structure Shortlist where
  id : String := ""
  name : String := ""
  description : Option String := none
  role_title : Option String := none
  client_name : Option String := none
  status : String := "active"
deriving DecidableEq, Repr

/-- A row of the `shortlist_items` table
(UNIQUE(shortlist_id, contractor_id), both columns NOT NULL REFERENCES). -/
structure ShortlistItem where
  id : String := ""
  shortlist_id : String := ""
  contractor_id : String := ""
  notes : Option String := none
  status : String := "shortlisted"
  added_at : Int := 0
  updated_at : Int := 0
deriving DecidableEq, Repr

/-- A row of the `engagements` table. -/
structure Engagement where
  id : String := ""
  contractor_id : String := ""
  shortlist_id : Option String := none
  role_title : String := ""
  client_name : Option String := none
  start_date : Option String := none
  end_date : Option String := none
  agreed_rate : Option Int := none
  status : String := "pending"
  notes : Option String := none
  created_at : Int := 0
deriving DecidableEq, Repr

/-- The Record Store: one list per table. -/
structure Store where
  contractors : List Contractor := []
  jobs : List Job := []
  shortlists : List Shortlist := []
  shortlist_items : List ShortlistItem := []
  engagements : List Engagement := []
deriving DecidableEq, Repr

/-! ### Coerced output rows (the shapes `tools.ts` returns) -/

/-- Null-aware rating coercion:
`row.rating ? parseFloat(String(row.rating)) : null` applied to the
driver's text (`none` is SQL NULL; an empty string is also JS-falsy). -/
def coerceRating (t : Option String) : Option JsNumber :=
  match t with
  | some s => if s != "" then some (jsParseFloatStr s) else none
  | none => none

/-- One contractor as returned by `searchContractors` (numeric fields
coerced with `parseInt` / `parseFloat` from the driver's text). -/
structure SearchRowOut where
  id : String
  name : String
  initials : String
  title : String
  bio : Option String
  location : String
  day_rate : JsNumber
  years_experience : JsNumber
  availability : String
  available_from : Option String
  certifications : List String
  sectors : List String
  skills : List String
  rating : Option JsNumber
  review_count : JsNumber
  placement_count : JsNumber
  security_clearance : Option String
  email : Option String
  linkedin_url : Option String
deriving DecidableEq, Repr

/-- One contractor as returned by `getContractor`. -/
structure GetRowOut where
  id : String
  name : String
  initials : String
  title : String
  bio : Option String
  location : String
  day_rate : JsNumber
  years_experience : JsNumber
  availability : String
  available_from : Option String
  certifications : List String
  sectors : List String
  skills : List String
  rating : Option JsNumber
  review_count : JsNumber
  placement_count : JsNumber
  security_clearance : Option String
  created_at : Int
  email : Option String
  phone : Option String
  linkedin_url : Option String
deriving DecidableEq, Repr

/-- One contractor as returned by `getContractorCV`. -/
structure CvRowOut where
  id : String
  name : String
  initials : String
  title : String
  bio : Option String
  location : String
  day_rate : JsNumber
  years_experience : JsNumber
  availability : String
  certifications : List String
  sectors : List String
  skills : List String
  rating : Option JsNumber
  review_count : JsNumber
  placement_count : JsNumber
  security_clearance : Option String
  email : Option String
  phone : Option String
  linkedin_url : Option String
  education : List String
  work_history : List String
  notable_projects : List String
  languages : List String
deriving DecidableEq, Repr

/-- One annotated candidate as returned by `findMatchingContractors`.
Note: the source coerces only `day_rate`, `years_experience` and `rating`
here; `review_count` is spread through as the driver yielded it (text). -/
structure MatchRowOut where
  id : String
  name : String
  title : String
  location : String
  day_rate : JsNumber
  years_experience : JsNumber
  availability : String
  certifications : List String
  skills : List String
  rating : Option JsNumber
  review_count : String
  security_clearance : Option String
  email : Option String
  matching_certifications : List String
  matching_skills : List String
  location_match : Bool
  within_budget : Bool
deriving DecidableEq, Repr

/-! ### Semantics of the built predicates and the operations -/

/-- Insert `x` into a sorted list: strictly-smaller elements stay in
front, `x` goes before anything tied with it (stable). -/
def insSorted {α : Type} (le : α → α → Bool) (x : α) : List α → List α
  | [] => [x]
  | y :: ys => if le y x && !(le x y) then y :: insSorted le x ys else x :: y :: ys

/-- Stable insertion sort by a total boolean comparison — the model of
SQL `ORDER BY` (chosen structurally recursive so that the kernel can
evaluate concrete queries). -/
def sortBy {α : Type} (le : α → α → Bool) : List α → List α
  | [] => []
  | x :: xs => insSorted le x (sortBy le xs)

theorem length_insSorted {α : Type} (le : α → α → Bool) (x : α) (l : List α) :
    (insSorted le x l).length = l.length + 1 := by
  induction l with
  | nil => rfl
  | cons y ys ih =>
    by_cases h : (le y x && !(le x y)) = true
    · simp [insSorted, h, ih]
    · have h2 : (le y x && !(le x y)) = false := by
        revert h; cases le y x && !(le x y) <;> simp
      simp [insSorted, h2]

theorem length_sortBy {α : Type} (le : α → α → Bool) (l : List α) :
    (sortBy le l).length = l.length := by
  induction l with
  | nil => rfl
  | cons x xs ih => simp [sortBy, length_insSorted, ih]

theorem mem_insSorted {α : Type} (le : α → α → Bool) (x a : α) (l : List α) :
    a ∈ insSorted le x l ↔ a = x ∨ a ∈ l := by
  induction l with
  | nil => simp [insSorted]
  | cons y ys ih =>
    by_cases h : (le y x && !(le x y)) = true
    · simp [insSorted, h, ih]
      tauto
    · have h2 : (le y x && !(le x y)) = false := by
        revert h; cases le y x && !(le x y) <;> simp
      simp [insSorted, h2]

theorem mem_sortBy {α : Type} (le : α → α → Bool) (a : α) (l : List α) :
    a ∈ sortBy le l ↔ a ∈ l := by
  induction l with
  | nil => simp [sortBy]
  | cons x xs ih =>
    simp [sortBy, mem_insSorted, ih]

/-- The conjunction of the present `searchContractors` filters, evaluated
on one contractor row — the store-side meaning of the built WHERE clause,
condition by condition in source order. -/
def matchesSearch (p : SearchParams) (c : Contractor) : Bool :=
  (if optStrTruthy p.location then lowerStr c.location == lowerStr (p.location.getD "") else true) &&
  (if availTruthy p.availability then c.availability == p.availability.getD "" else true) &&
  (if optArrTruthy p.certifications then arrOverlap c.certifications (p.certifications.getD []) else true) &&
  (if optArrTruthy p.skills then arrOverlap c.skills (p.skills.getD []) else true) &&
  (if optIntTruthy p.max_rate then decide (c.day_rate ≤ p.max_rate.getD 0) else true) &&
  (if optStrTruthy p.sector then c.sectors.contains (p.sector.getD "") else true) &&
  (if optIntTruthy p.min_experience then decide (c.years_experience ≥ p.min_experience.getD 0) else true) &&
  (if optStrTruthy p.clearance then c.security_clearance == some (p.clearance.getD "") else true) &&
  (if optStrTruthy p.query then
    (likeContains c.name (p.query.getD "") || likeContains c.title (p.query.getD "") ||
      likeContains (c.bio.getD "") (p.query.getD "") ||
      c.skills.any (fun s => likeContains s (p.query.getD "")))
  else true)

/-- `ORDER BY rating DESC NULLS LAST, review_count DESC` as a total
boolean comparison (a sorts before-or-with b). -/
def searchCmp (a b : Contractor) : Bool :=
  match a.rating, b.rating with
  | some x, some y =>
    if x.val ≠ y.val then decide (y.val ≤ x.val) else decide (b.review_count ≤ a.review_count)
  | some _, none => true
  | none, some _ => false
  | none, none => decide (b.review_count ≤ a.review_count)

/-- The coercion `searchContractors` applies to each row it returns, fed
with the driver's textual form of the numeric columns. -/
def searchOut (c : Contractor) : SearchRowOut :=
  { id := c.id, name := c.name, initials := c.initials, title := c.title, bio := c.bio,
    location := c.location,
    day_rate := jsParseIntStr (intRender c.day_rate),
    years_experience := jsParseIntStr (intRender c.years_experience),
    availability := c.availability, available_from := c.available_from,
    certifications := c.certifications, sectors := c.sectors, skills := c.skills,
    rating := coerceRating (c.rating.map ratingRender),
    review_count := jsParseIntStr (intRender c.review_count),
    placement_count := jsParseIntStr (intRender c.placement_count),
    security_clearance := c.security_clearance, email := c.email,
    linkedin_url := c.linkedin_url }

/-- Result shape of `searchContractors`. -/
structure SearchResult where
  total_matches : Nat
  showing : Nat
  contractors : List SearchRowOut
deriving DecidableEq, Repr

/-- The page of rows the data query returns: matching rows in query
order, truncated by `LIMIT`. -/
def searchPage (st : Store) (p : SearchParams) : List Contractor :=
  (sortBy searchCmp (st.contractors.filter (matchesSearch p))).take (jsLimit p.limit 10).toNat

/-- `searchContractors`: COUNT over the same WHERE clause, then a page of
up to `limit` rows (default 10), each coerced. -/
def searchContractors (st : Store) (p : SearchParams) : SearchResult :=
  { total_matches := (st.contractors.filter (matchesSearch p)).length
    showing := (searchPage st p).length
    contractors := (searchPage st p).map searchOut }

/-- Whether a SQL text is one of the read-only (SELECT) statements of
this model; anything else would have unknown effects on the store. -/
def sqlReadOnly (text : String) : Bool :=
  leadsWith text.data ("SELECT").data || leadsWith text.data ("\n    SELECT").data

/-- Executing a statement against the store: a SELECT leaves it
untouched; any other statement text is outside this model (`none`). -/
def dbExec (st : Store) (text : String) : Option Store :=
  if sqlReadOnly text then some st else none

/-- `searchContractors` as a store transition: runs the count query, then
the data query, and returns the result together with the store both left
behind (`none` would mean a non-SELECT text was executed). -/
def searchContractorsRun (st : Store) (p : SearchParams) :
    Option (SearchResult × Store) :=
  match dbExec st (searchCountQuery p) with
  | none => none
  | some st1 =>
    match dbExec st1 (searchDataQuery p) with
    | none => none
    | some st2 => some (searchContractors st p, st2)

/-- `getContractor`: coercion applied to the single row. -/
def getOut (c : Contractor) : GetRowOut :=
  { id := c.id, name := c.name, initials := c.initials, title := c.title, bio := c.bio,
    location := c.location,
    day_rate := jsParseIntStr (intRender c.day_rate),
    years_experience := jsParseIntStr (intRender c.years_experience),
    availability := c.availability, available_from := c.available_from,
    certifications := c.certifications, sectors := c.sectors, skills := c.skills,
    rating := coerceRating (c.rating.map ratingRender),
    review_count := jsParseIntStr (intRender c.review_count),
    placement_count := jsParseIntStr (intRender c.placement_count),
    security_clearance := c.security_clearance, created_at := c.created_at,
    email := c.email, phone := c.phone, linkedin_url := c.linkedin_url }

/-- `getContractor` (`null` for a missing id is modelled as `none`). -/
def getContractor (st : Store) (id : String) : Option GetRowOut :=
  (st.contractors.find? (fun c => c.id == id)).map getOut

/-- `getContractorCV`: coercion applied to the single row. -/
def cvOut (c : Contractor) : CvRowOut :=
  { id := c.id, name := c.name, initials := c.initials, title := c.title, bio := c.bio,
    location := c.location,
    day_rate := jsParseIntStr (intRender c.day_rate),
    years_experience := jsParseIntStr (intRender c.years_experience),
    availability := c.availability,
    certifications := c.certifications, sectors := c.sectors, skills := c.skills,
    rating := coerceRating (c.rating.map ratingRender),
    review_count := jsParseIntStr (intRender c.review_count),
    placement_count := jsParseIntStr (intRender c.placement_count),
    security_clearance := c.security_clearance,
    email := c.email, phone := c.phone, linkedin_url := c.linkedin_url,
    education := c.education, work_history := c.work_history,
    notable_projects := c.notable_projects, languages := c.languages }

/-- `getContractorCV` (`null` for a missing id is modelled as `none`). -/
def getContractorCV (st : Store) (id : String) : Option CvRowOut :=
  (st.contractors.find? (fun c => c.id == id)).map cvOut

/-- Arguments of `listJobs`. -/
structure ListJobsParams where
  status : Option String := none
  sector : Option String := none
  urgency : Option String := none
  location : Option String := none
  limit : Option Int := none

/-- The conjunction of the present `listJobs` filters on one job row
(`LOWER(sector) = LOWER($)` over a NULL sector matches nothing). -/
def matchesJobsList (p : ListJobsParams) (j : Job) : Bool :=
  (if optStrTruthy p.status then j.status == p.status.getD "" else true) &&
  (if optStrTruthy p.sector then
    (match j.sector with
     | some s => lowerStr s == lowerStr (p.sector.getD "")
     | none => false)
  else true) &&
  (if optStrTruthy p.urgency then j.urgency == p.urgency.getD "" else true) &&
  (if optStrTruthy p.location then lowerStr j.location == lowerStr (p.location.getD "") else true)

/-- `CASE urgency WHEN 'critical' THEN 1 … END` (NULL for any other
value, and SQL sorts NULL last under ascending order). -/
def urgencyRank (u : String) : Option Nat :=
  if u == "critical" then some 1
  else if u == "urgent" then some 2
  else if u == "normal" then some 3
  else if u == "low" then some 4
  else none

/-- `ORDER BY` urgency rank ascending (NULLS LAST) then `created_at`
descending, as a total boolean comparison. -/
def jobsCmp (a b : Job) : Bool :=
  match urgencyRank a.urgency, urgencyRank b.urgency with
  | some x, some y =>
    if x ≠ y then decide (x ≤ y) else decide (b.created_at ≤ a.created_at)
  | some _, none => true
  | none, some _ => false
  | none, none => decide (b.created_at ≤ a.created_at)

/-- Result shape of `listJobs`. -/
structure ListJobsResult where
  total : Nat
  jobs : List Job
deriving DecidableEq, Repr

/-- `listJobs`: filter, order, truncate to `limit` (default 20); the
source sets `total: result.rows.length` — the length of the page the
single LIMIT-ed query returned, not an unlimited count. -/
def listJobs (st : Store) (p : ListJobsParams) : ListJobsResult :=
  let page := (sortBy jobsCmp (st.jobs.filter (matchesJobsList p))).take
    (jsLimit p.limit 20).toNat
  { total := page.length, jobs := page }

/-- The WHERE clause of `findMatchingContractors` on one contractor row:
the four conditional requirement predicates in source order, then the
unconditional `availability != 'unavailable'` push. -/
def matchesJob (job : Job) (c : Contractor) : Bool :=
  (if job.required_certifications.length > 0 then
    arrOverlap c.certifications job.required_certifications else true) &&
  (if job.required_skills.length > 0 then
    arrOverlap c.skills job.required_skills else true) &&
  (match job.required_clearance with
   | some v => if v != "" then c.security_clearance == some v else true
   | none => true) &&
  (match job.experience_min with
   | some v => if v != 0 then decide (c.years_experience ≥ v) else true
   | none => true) &&
  (c.availability != "unavailable")

/-- `ORDER BY` location match first, then rating DESC NULLS LAST, then
years of experience DESC, as a total boolean comparison. -/
def matchCmp (job : Job) (a b : Contractor) : Bool :=
  let la : Nat := if lowerStr a.location == lowerStr job.location then 0 else 1
  let lb : Nat := if lowerStr b.location == lowerStr job.location then 0 else 1
  if la ≠ lb then decide (la ≤ lb)
  else
    match a.rating, b.rating with
    | some x, some y =>
      if x.val ≠ y.val then decide (y.val ≤ x.val)
      else decide (b.years_experience ≤ a.years_experience)
    | some _, none => true
    | none, some _ => false
    | none, none => decide (b.years_experience ≤ a.years_experience)

/-- The per-candidate annotation and (partial) coercion of
`findMatchingContractors`; `review_count` is spread through untouched, so
it stays in the driver's textual form. -/
def matchOut (job : Job) (c : Contractor) : MatchRowOut :=
  { id := c.id, name := c.name, title := c.title, location := c.location,
    day_rate := jsParseIntStr (intRender c.day_rate),
    years_experience := jsParseIntStr (intRender c.years_experience),
    availability := c.availability,
    certifications := c.certifications, skills := c.skills,
    rating := coerceRating (c.rating.map ratingRender),
    review_count := intRender c.review_count,
    security_clearance := c.security_clearance, email := c.email,
    matching_certifications :=
      job.required_certifications.filter (fun x => c.certifications.contains x),
    matching_skills := job.required_skills.filter (fun x => c.skills.contains x),
    location_match := lowerStr c.location == lowerStr job.location,
    within_budget :=
      match job.day_rate_max with
      | some m => if m != 0 then decide (c.day_rate ≤ m) else true
      | none => true }

/-- The job identity/summary `findMatchingContractors` returns. -/
structure JobSummary where
  id : String
  title : String
  client_name : String
  location : String
deriving DecidableEq, Repr

/-- Result of `findMatchingContractors`: the distinct error object for a
missing job, or the success object. -/
inductive MatchResult where
  | err : String → MatchResult
  | ok : JobSummary → Nat → List MatchRowOut → MatchResult
deriving DecidableEq, Repr

/-- `findMatchingContractors`: job lookup, requirement filtering with the
unconditional availability exclusion, ordering, truncation to `limit`
(default 10), annotation. The source sets
`total_matches: contractors.length` — the length of the truncated list. -/
def findMatchingContractors (st : Store) (jobId : String) (limit : Option Int) :
    MatchResult :=
  match st.jobs.find? (fun j => j.id == jobId) with
  | none => .err "Job not found"
  | some job =>
    let page := (sortBy (matchCmp job) (st.contractors.filter (matchesJob job))).take
      (jsLimit limit 10).toNat
    let outs := page.map (matchOut job)
    .ok ⟨job.id, job.title, job.client_name, job.location⟩ outs.length outs

/-! ### Lifecycle operations (writes) -/

/-- A store-side failure (constraint violation) that the operation does
not catch: it propagates to the caller as a fault, never as a returned
error object. -/
inductive DbError where
  | fkViolation : String → DbError
deriving DecidableEq, Repr

/-- Arguments of `addToShortlist`. -/
structure AddParams where
  shortlist_id : String
  contractor_id : String
  notes : Option String := none

/-- Outcome of `addToShortlist` when no fault is thrown: the returned
error object, or the upserted row plus contractor name/title. -/
inductive AddOutcome where
  | errObj : String → AddOutcome
  | ok : ShortlistItem → String → String → AddOutcome
deriving DecidableEq, Repr

/-- Does an item belong to the (shortlist, contractor) pair? -/
def pairMatch (sid cid : String) (it : ShortlistItem) : Bool :=
  it.shortlist_id == sid && it.contractor_id == cid

/-- `addToShortlist`: checks the contractor exists (returning the error
object otherwise), then upserts the item. The store enforces
`shortlist_id … NOT NULL REFERENCES shortlists(id)` (from `db.ts`), so an
insert for a nonexistent shortlist throws a foreign-key fault; the
`ON CONFLICT (shortlist_id, contractor_id) DO UPDATE` arm replaces the
notes and refreshes `updated_at` instead of failing on a duplicate. -/
def addToShortlist (st : Store) (p : AddParams) (now : Int) :
    Except DbError AddOutcome × Store :=
  match st.contractors.find? (fun c => c.id == p.contractor_id) with
  | none => (.ok (.errObj "Contractor not found"), st)
  | some c =>
    match st.shortlist_items.find? (pairMatch p.shortlist_id p.contractor_id) with
    | some old =>
      let updated := { old with notes := jsStrOrNull p.notes, updated_at := now }
      let items := st.shortlist_items.map (fun it =>
        if pairMatch p.shortlist_id p.contractor_id it then updated else it)
      (.ok (.ok updated c.name c.title), { st with shortlist_items := items })
    | none =>
      if (st.shortlists.find? (fun s => s.id == p.shortlist_id)).isNone then
        (.error (.fkViolation "shortlist_items_shortlist_id_fkey"), st)
      else
        let newItem : ShortlistItem :=
          { id := "si-" ++ natRender st.shortlist_items.length,
            shortlist_id := p.shortlist_id, contractor_id := p.contractor_id,
            notes := jsStrOrNull p.notes, status := "shortlisted",
            added_at := now, updated_at := now }
        (.ok (.ok newItem c.name c.title),
          { st with shortlist_items := st.shortlist_items ++ [newItem] })

/-- Arguments of `bookContractor`. -/
structure BookParams where
  contractor_id : String
  role_title : String
  client_name : Option String := none
  shortlist_id : Option String := none
  start_date : Option String := none
  end_date : Option String := none
  agreed_rate : Option Int := none
  notes : Option String := none

/-- Outcome of `bookContractor` when no fault is thrown: the returned
error object, or the engagement plus contractor name, email and the
confirmation message. -/
inductive BookOutcome where
  | errObj : String → BookOutcome
  | ok : Engagement → String → Option String → String → BookOutcome
deriving DecidableEq, Repr

/-- The engagement row the booking INSERT creates: status `'confirmed'`,
JS-falsy optional arguments stored as NULL. -/
def bookEngagement (st : Store) (p : BookParams) (now : Int) : Engagement :=
  { id := "eng-" ++ natRender st.engagements.length,
    contractor_id := p.contractor_id,
    shortlist_id := jsStrOrNull p.shortlist_id,
    role_title := p.role_title,
    client_name := jsStrOrNull p.client_name,
    start_date := jsStrOrNull p.start_date,
    end_date := jsStrOrNull p.end_date,
    agreed_rate := jsIntOrNull p.agreed_rate,
    status := "confirmed",
    notes := jsStrOrNull p.notes,
    created_at := now }

/-- `bookContractor`: checks the contractor exists (error object
otherwise), inserts the engagement with status `'confirmed'` (the store's
`engagements.shortlist_id REFERENCES shortlists(id)` throws a foreign-key
fault for a nonexistent shortlist reference), forces the contractor's
availability to `'unavailable'`, and — only when a (JS-truthy) shortlist
reference was supplied — sets the matching shortlist item's status to
`'accepted'`. -/
def bookContractor (st : Store) (p : BookParams) (now : Int) :
    Except DbError BookOutcome × Store :=
  match st.contractors.find? (fun c => c.id == p.contractor_id) with
  | none => (.ok (.errObj "Contractor not found"), st)
  | some c =>
    if ((match jsStrOrNull p.shortlist_id with
        | some sid => (st.shortlists.find? (fun s => s.id == sid)).isNone
        | none => false : Bool)) then
      (.error (.fkViolation "engagements_shortlist_id_fkey"), st)
    else
      let eng : Engagement := bookEngagement st p now
      let st1 := { st with engagements := st.engagements ++ [eng] }
      let st2 := { st1 with contractors := st1.contractors.map (fun x =>
        if x.id == p.contractor_id then { x with availability := "unavailable" } else x) }
      let st3 :=
        if optStrTruthy p.shortlist_id then
          { st2 with shortlist_items := st2.shortlist_items.map (fun it =>
              if pairMatch (p.shortlist_id.getD "") p.contractor_id it then
                { it with status := "accepted", updated_at := now }
              else it) }
        else st2
      (.ok (.ok eng c.name c.email
        (c.name ++ " has been booked for " ++ p.role_title ++
          ". Their availability has been updated to unavailable.")), st3)

/-! ### Helper lemmas -/

theorem mem_of_mem_sorted_take {α : Type} (le : α → α → Bool) (l : List α) (n : Nat)
    (a : α) (h : a ∈ (sortBy le l).take n) : a ∈ l :=
  (mem_sortBy le a l).mp (List.take_subset _ _ h)

theorem leadsWith_nil (l : List Char) : leadsWith l [] = true := by
  cases l <;> rfl

theorem leadsWith_append (a b pat : List Char) (h : leadsWith a pat = true) :
    leadsWith (a ++ b) pat = true := by
  induction pat generalizing a with
  | nil => exact leadsWith_nil _
  | cons pc pt ih =>
    cases a with
    | nil => simp [leadsWith] at h
    | cons ac tl =>
      simp only [leadsWith, Bool.and_eq_true] at h
      simp only [List.cons_append, leadsWith, Bool.and_eq_true]
      exact ⟨h.1, ih tl h.2⟩

theorem sqlReadOnly_searchCountQuery (p : SearchParams) :
    sqlReadOnly (searchCountQuery p) = true := by
  have h0 : leadsWith ("SELECT COUNT(*) as total FROM contractors ").data ("SELECT").data
      = true := by decide
  have h1 := leadsWith_append ("SELECT COUNT(*) as total FROM contractors ").data
    (whereClauseOf (runSteps (searchSteps p)).conds).data ("SELECT").data h0
  simp only [sqlReadOnly, Bool.or_eq_true]
  exact Or.inl h1

theorem strLeadsWith_append (a b : String) (pat : List Char)
    (h : leadsWith a.data pat = true) : leadsWith (a ++ b).data pat = true :=
  leadsWith_append a.data b.data pat h

theorem sqlReadOnly_searchDataQuery (p : SearchParams) :
    sqlReadOnly (searchDataQuery p) = true := by
  have h0 : leadsWith ("\n    SELECT id, name, initials, title, bio, location, day_rate, years_experience,\n           availability, available_from, certifications, sectors, skills,\n           rating, review_count, placement_count, security_clearance, email, linkedin_url\n    FROM contractors\n    ").data ("\n    SELECT").data = true := by decide
  have h1 := strLeadsWith_append _ (whereClauseOf (runSteps (searchSteps p)).conds) _ h0
  have h2 := strLeadsWith_append _
    "\n    ORDER BY rating DESC NULLS LAST, review_count DESC\n    LIMIT " _ h1
  have h3 := strLeadsWith_append _ (ph (runSteps (searchSteps p)).idx) _ h2
  have h4 := strLeadsWith_append _ "\n  " _ h3
  simp only [sqlReadOnly, Bool.or_eq_true]
  right
  exact h4

theorem ratingRender_not_empty (r : Rating) : (ratingRender r != "") = true := by
  revert r
  decide

theorem coerceRating_map (o : Option Rating) :
    coerceRating (o.map ratingRender) = o.map (fun r => JsNumber.num (ratingVal r)) := by
  cases o with
  | none => rfl
  | some r =>
    have h1 := ratingRender_not_empty r
    show (if (ratingRender r != "") = true then some (jsParseFloatStr (ratingRender r)) else none)
      = some (JsNumber.num (ratingVal r))
    rw [if_pos h1, jsParseFloatStr_ratingRender]

theorem filter_map_replace {α : Type} (q : α → Bool) (u : α) (hu : q u = true)
    (l : List α) :
    ((l.map (fun x => if q x then u else x)).filter q) = (l.filter q).map (fun _ => u) := by
  induction l with
  | nil => rfl
  | cons x t ih =>
    by_cases hx : q x = true
    · simp [List.map_cons, List.filter_cons, hx, hu, ih]
    · have hx2 : q x = false := by revert hx; cases q x <;> simp
      simp [List.map_cons, List.filter_cons, hx2, ih]

theorem singleton_filter_of_find?_le_one {α : Type} (q : α → Bool) (l : List α) (a : α)
    (hfind : l.find? q = some a) (hle : (l.filter q).length ≤ 1) :
    l.filter q = [a] := by
  have hmem : a ∈ l.filter q :=
    List.mem_filter.mpr ⟨List.mem_of_find?_eq_some hfind, List.find?_some hfind⟩
  have hne : l.filter q ≠ [] := by
    intro h; rw [h] at hmem; simp at hmem
  have hlen : (l.filter q).length = 1 := by
    have := List.length_pos.mpr hne
    omega
  rcases List.length_eq_one.mp hlen with ⟨b, hb⟩
  rw [hb] at hmem ⊢
  simp only [List.mem_singleton] at hmem
  rw [hmem]

/-! ### Concrete stores used by witnesses and counterexamples -/

/-- A contractor with every numeric field populated. -/
def cAlice : Contractor :=
  { id := "c1", name := "Alice", title := "Auditor", location := "London", day_rate := 500,
    years_experience := 7, availability := "available", rating := some ⟨45, by decide⟩,
    review_count := 12, placement_count := 3, email := some "alice@example.com" }

/-- A contractor who is unavailable. -/
def cBob : Contractor :=
  { id := "c2", name := "Bob", title := "Engineer", location := "Leeds", day_rate := 700,
    years_experience := 9, availability := "unavailable", review_count := 4 }

/-- A second available contractor. -/
def cCara : Contractor :=
  { id := "c3", name := "Cara", title := "Analyst", location := "York", day_rate := 400,
    years_experience := 2, availability := "within_30" }

/-- A job with no additional requirements. -/
def jDemo : Job :=
  { id := "j1", title := "Lead", client_name := "Acme", location := "London" }

/-- Demo store: one available and one unavailable contractor, one job, one
shortlist. -/
def stDemo : Store :=
  { contractors := [cAlice, cBob], jobs := [jDemo],
    shortlists := [{ id := "sl1", name := "Q1" }] }

/-- Store with two available contractors matching `jDemo`. -/
def stTwoAvail : Store :=
  { contractors := [cAlice, cCara], jobs := [jDemo] }

/-- Store with two jobs matching an empty filter. -/
def stJobsTwo : Store :=
  { jobs := [ { id := "j1", title := "A", client_name := "X", location := "L" },
              { id := "j2", title := "B", client_name := "X", location := "L" } ] }

/-- Store whose only contractor is unavailable (zero matches for `jDemo`). -/
def stNoMatch : Store :=
  { contractors := [cBob], jobs := [jDemo] }

/-! ### Claim theorems -/

/-- The single-quote character (code 39), kept out of string literals. -/
def sqlQuote : Char := Char.ofNat 39

/-- The injection payload of the claim: a single quote, then
`; DROP TABLE contractors; --`. -/
def injectionPayload : String :=
  String.mk [sqlQuote] ++ "; DROP TABLE contractors; --"

/-- C1: for every pair of `searchContractors` inputs with the same set of
present (truthy, non-sentinel) filters, the COUNT and data query texts are
identical character for character regardless of the filter values; every
filter value reaches the store only through the bound-values list (the
present steps, in push order, plus the limit); executing the operation
runs only SELECT texts and leaves the store unchanged; and the injection
payload behaves as inert data: on the demo store it yields the well-formed
empty result. -/
theorem c1_search_injection_inert :
    (∀ p1 p2 : SearchParams, searchProfile p1 = searchProfile p2 →
      searchCountQuery p1 = searchCountQuery p2 ∧ searchDataQuery p1 = searchDataQuery p2) ∧
    (∀ p : SearchParams,
      searchValues p =
        ((searchSteps p).filter FilterStep.present).map FilterStep.value ++
          [SqlValue.n (jsLimit p.limit 10)]) ∧
    (∀ (st : Store) (p : SearchParams),
      searchContractorsRun st p = some (searchContractors st p, st)) ∧
    (searchContractors stDemo { location := some injectionPayload } =
      { total_matches := 0, showing := 0, contractors := [] }) := by
  refine ⟨fun p1 p2 h => searchQueryText_profile_determined h, searchValues_eq,
    fun st p => ?_, by decide⟩
  simp only [searchContractorsRun, dbExec, sqlReadOnly_searchCountQuery,
    sqlReadOnly_searchDataQuery, if_true]

/-- C1 witness: two inputs with the same filters present but different
values — one of them the injection payload — produce character-identical
query texts. -/
theorem c1_search_injection_inert_witness :
    searchCountQuery { location := some "London", max_rate := some 800 } =
      searchCountQuery { location := some injectionPayload, max_rate := some 99 } ∧
    searchDataQuery { location := some "London", max_rate := some 800 } =
      searchDataQuery { location := some injectionPayload, max_rate := some 99 } :=
  c1_search_injection_inert.1 _ _ (by decide)

/-- C9: a zero-valued `max_rate`, `min_experience` or `limit` is treated
exactly as an omitted filter, because presence is tested by JS value
truthiness: the built query texts, bound values and the full operation
result coincide with the omitted-filter run (for `limit`, the default
page size 10 applies instead of an empty page). -/
theorem c9_zero_valued_filters_as_omitted (st : Store) (p : SearchParams) :
    (searchContractors st { p with max_rate := some 0 } =
        searchContractors st { p with max_rate := none } ∧
      searchCountQuery { p with max_rate := some 0 } =
        searchCountQuery { p with max_rate := none } ∧
      searchDataQuery { p with max_rate := some 0 } =
        searchDataQuery { p with max_rate := none } ∧
      searchValues { p with max_rate := some 0 } =
        searchValues { p with max_rate := none }) ∧
    (searchContractors st { p with min_experience := some 0 } =
        searchContractors st { p with min_experience := none } ∧
      searchCountQuery { p with min_experience := some 0 } =
        searchCountQuery { p with min_experience := none } ∧
      searchDataQuery { p with min_experience := some 0 } =
        searchDataQuery { p with min_experience := none } ∧
      searchValues { p with min_experience := some 0 } =
        searchValues { p with min_experience := none }) ∧
    (searchContractors st { p with limit := some 0 } =
        searchContractors st { p with limit := none } ∧
      searchValues { p with limit := some 0 } =
        searchValues { p with limit := none }) :=
  ⟨⟨rfl, rfl, rfl, rfl⟩, ⟨rfl, rfl, rfl, rfl⟩, rfl, rfl⟩

/-- C3 counterexample: with two matching jobs and limit 1, `listJobs`
reports `total = 1` — the page length — while the number of all matching
jobs ignoring the limit is 2, so `total` is not the unlimited match
count the claim asserts. -/
theorem c3_listJobs_total_counterexample :
    (listJobs stJobsTwo { limit := some 1 }).total = 1 ∧
    (stJobsTwo.jobs.filter (matchesJobsList { limit := some 1 })).length = 2 ∧
    (1 : Nat) ≠ 2 :=
  ⟨by decide, by decide, by decide⟩

/-- C3 as amended: `searchContractors.total_matches` is the unlimited
match count (so it bounds `showing`, which the limit in turn bounds), but
`listJobs.total` equals the length of the returned page — the minimum of
the limit (default 20) and the unlimited match count — not the unlimited
count. -/
theorem c3_counts_and_pagination (st : Store) (p : SearchParams) (q : ListJobsParams) :
    ((searchContractors st p).total_matches =
        (st.contractors.filter (matchesSearch p)).length ∧
      (searchContractors st p).showing ≤ (searchContractors st p).total_matches ∧
      (searchContractors st p).showing ≤ (jsLimit p.limit 10).toNat) ∧
    ((listJobs st q).total = (listJobs st q).jobs.length ∧
      (listJobs st q).total =
        min (jsLimit q.limit 20).toNat (st.jobs.filter (matchesJobsList q)).length) := by
  refine ⟨⟨rfl, ?_, ?_⟩, rfl, ?_⟩
  · show (searchPage st p).length ≤ _
    simp only [searchPage, List.length_take, length_sortBy]
    exact min_le_right _ _
  · show (searchPage st p).length ≤ _
    simp only [searchPage, List.length_take, length_sortBy]
    exact min_le_left _ _
  · show ((sortBy jobsCmp (st.jobs.filter (matchesJobsList q))).take
      (jsLimit q.limit 20).toNat).length = _
    simp only [List.length_take, length_sortBy]

/-- C5: `findMatchingContractors` returns the distinct error object for a
missing job id, and the success object with zero matches and an empty
list for an existing job matching no contractor; the two outcomes are
different constructors of the result type, and the missing-job case is
returned as data, never thrown. -/
theorem c5_job_not_found_distinct (st : Store) (jobId : String) (limit : Option Int) :
    (st.jobs.find? (fun j => j.id == jobId) = none →
      findMatchingContractors st jobId limit = .err "Job not found") ∧
    (∀ job, st.jobs.find? (fun j => j.id == jobId) = some job →
      st.contractors.filter (matchesJob job) = [] →
      findMatchingContractors st jobId limit =
        .ok ⟨job.id, job.title, job.client_name, job.location⟩ 0 []) ∧
    (∀ (m : String) (js : JobSummary) (tm : Nat) (cs : List MatchRowOut),
      MatchResult.err m ≠ MatchResult.ok js tm cs) := by
  refine ⟨fun h => ?_, fun job hj hf => ?_, fun m js tm cs h => MatchResult.noConfusion h⟩
  · simp only [findMatchingContractors, h]
  · simp only [findMatchingContractors, hj, hf]
    simp [sortBy]

/-- C5 witness: a nonexistent job id yields the error object, and a job
whose only candidate is unavailable yields the zero-match success
object. -/
theorem c5_job_not_found_distinct_witness :
    findMatchingContractors stDemo "nope" none = .err "Job not found" ∧
    findMatchingContractors stNoMatch "j1" none =
      .ok ⟨"j1", "Lead", "Acme", "London"⟩ 0 [] :=
  ⟨(c5_job_not_found_distinct stDemo "nope" none).1 (by decide),
    (c5_job_not_found_distinct stNoMatch "j1" none).2.1 jDemo (by decide) (by decide)⟩

/-- C4: every contractor in a successful `findMatchingContractors` result
has availability different from `unavailable`: the exclusion predicate is
pushed unconditionally, for every combination of the job requirements. -/
theorem c4_matching_excludes_unavailable (st : Store) (jobId : String) (limit : Option Int)
    (js : JobSummary) (tm : Nat) (outs : List MatchRowOut)
    (h : findMatchingContractors st jobId limit = .ok js tm outs) :
    ∀ r ∈ outs, r.availability ≠ "unavailable" := by
  rcases hf : st.jobs.find? (fun j => j.id == jobId) with _ | job
  · simp [findMatchingContractors, hf] at h
  · simp only [findMatchingContractors, hf, MatchResult.ok.injEq] at h
    intro r hr
    rw [← h.2.2] at hr
    rcases List.mem_map.mp hr with ⟨c, hc, hout⟩
    have hcmem : c ∈ st.contractors.filter (matchesJob job) :=
      mem_of_mem_sorted_take _ _ _ _ hc
    have hcp : matchesJob job c = true := (List.mem_filter.mp hcmem).2
    have hav : (c.availability != "unavailable") = true := by
      simp only [matchesJob, Bool.and_eq_true] at hcp
      exact hcp.2
    rw [← hout]
    show c.availability ≠ "unavailable"
    simpa using hav

/-- C4 witness: on the demo store the available contractor is returned
and is indeed not unavailable. -/
theorem c4_matching_excludes_unavailable_witness :
    (matchOut jDemo cAlice).availability ≠ "unavailable" :=
  c4_matching_excludes_unavailable stDemo "j1" none
    ⟨"j1", "Lead", "Acme", "London"⟩ 1 [matchOut jDemo cAlice] (by decide)
    (matchOut jDemo cAlice) (List.mem_singleton_self _)

/-- C7 counterexample: with two contractors matching the job and limit 1,
`findMatchingContractors` reports `total_matches = 1` — the truncated
list length — while the number of matching contractors is 2; so
`total_matches` does not exceed the returned length when more match. -/
theorem c7_total_matches_counterexample :
    findMatchingContractors stTwoAvail "j1" (some 1) =
      .ok ⟨"j1", "Lead", "Acme", "London"⟩ 1 [matchOut jDemo cAlice] ∧
    (stTwoAvail.contractors.filter (matchesJob jDemo)).length = 2 ∧
    (1 : Nat) ≠ 2 :=
  ⟨by decide, by decide, by decide⟩

/-- C7 as amended: in every successful `findMatchingContractors` result,
`total_matches` equals the length of the returned (truncated) contractor
list, which is bounded by the limit (default 10); it is not the
pre-truncation match count. -/
theorem c7_total_matches_is_page_length (st : Store) (jobId : String) (limit : Option Int)
    (js : JobSummary) (tm : Nat) (outs : List MatchRowOut)
    (h : findMatchingContractors st jobId limit = .ok js tm outs) :
    tm = outs.length ∧ outs.length ≤ (jsLimit limit 10).toNat := by
  rcases hf : st.jobs.find? (fun j => j.id == jobId) with _ | job
  · simp [findMatchingContractors, hf] at h
  · simp only [findMatchingContractors, hf, MatchResult.ok.injEq] at h
    rcases h with ⟨-, h2, h3⟩
    constructor
    · rw [← h2, ← h3]
    · rw [← h3]
      simp only [List.length_map, List.length_take, length_sortBy]
      exact min_le_left _ _

/-- C7 witness: the amended statement at the concrete two-match store. -/
theorem c7_total_matches_is_page_length_witness :
    (1 : Nat) = ([matchOut jDemo cAlice] : List MatchRowOut).length ∧
      ([matchOut jDemo cAlice] : List MatchRowOut).length ≤ (jsLimit (some 1) 10).toNat :=
  c7_total_matches_is_page_length stTwoAvail "j1" (some 1)
    ⟨"j1", "Lead", "Acme", "London"⟩ 1 [matchOut jDemo cAlice] (by decide)

/-- C8: the boundary coercion parses `day_rate`, `years_experience`,
`review_count`, `placement_count` back to their numeric values and maps a
NULL rating to null (never 0, never NaN) in `searchContractors`,
`getContractor` and `getContractorCV` — but `findMatchingContractors`
spreads `review_count` through without `parseInt`, so there it leaves the
store boundary as the driver text (evaluated at the failing input: the
returned row carries the string "12", not the number 12), contradicting
the claim and the source file header comment. -/
theorem c8_numeric_coercion_and_divergence :
    (∀ c : Contractor,
      (searchOut c).day_rate = .num (mkRat c.day_rate 1) ∧
      (searchOut c).years_experience = .num (mkRat c.years_experience 1) ∧
      (searchOut c).review_count = .num (mkRat c.review_count 1) ∧
      (searchOut c).placement_count = .num (mkRat c.placement_count 1) ∧
      (searchOut c).rating = c.rating.map (fun r => JsNumber.num (ratingVal r)) ∧
      (getOut c).day_rate = .num (mkRat c.day_rate 1) ∧
      (getOut c).years_experience = .num (mkRat c.years_experience 1) ∧
      (getOut c).review_count = .num (mkRat c.review_count 1) ∧
      (getOut c).placement_count = .num (mkRat c.placement_count 1) ∧
      (getOut c).rating = c.rating.map (fun r => JsNumber.num (ratingVal r)) ∧
      (cvOut c).day_rate = .num (mkRat c.day_rate 1) ∧
      (cvOut c).years_experience = .num (mkRat c.years_experience 1) ∧
      (cvOut c).review_count = .num (mkRat c.review_count 1) ∧
      (cvOut c).placement_count = .num (mkRat c.placement_count 1) ∧
      (cvOut c).rating = c.rating.map (fun r => JsNumber.num (ratingVal r)) ∧
      (matchOut jDemo c).day_rate = .num (mkRat c.day_rate 1) ∧
      (matchOut jDemo c).rating = c.rating.map (fun r => JsNumber.num (ratingVal r)) ∧
      (∀ job : Job, (matchOut job c).review_count = intRender c.review_count)) ∧
    (findMatchingContractors stDemo "j1" none =
      .ok ⟨"j1", "Lead", "Acme", "London"⟩ 1 [matchOut jDemo cAlice]) ∧
    (matchOut jDemo cAlice).review_count = "12" := by
  refine ⟨fun c => ?_, by decide, by decide⟩
  refine ⟨jsParseIntStr_intRender _, jsParseIntStr_intRender _, jsParseIntStr_intRender _,
    jsParseIntStr_intRender _, coerceRating_map _, jsParseIntStr_intRender _,
    jsParseIntStr_intRender _, jsParseIntStr_intRender _, jsParseIntStr_intRender _,
    coerceRating_map _, jsParseIntStr_intRender _, jsParseIntStr_intRender _,
    jsParseIntStr_intRender _, jsParseIntStr_intRender _, coerceRating_map _,
    jsParseIntStr_intRender _, coerceRating_map _, fun _ => rfl⟩

/-- C10: with an existing contractor and a shortlist id matching no
shortlist, `addToShortlist` does not return an error object; the insert
fails at the store with the foreign-key violation and propagates as a
fault, and no shortlist item is created (the store is unchanged). -/
theorem c10_addToShortlist_fk_fault (st : Store) (p : AddParams) (now : Int)
    (hc : (st.contractors.find? (fun c => c.id == p.contractor_id)).isSome = true)
    (hsl : st.shortlists.find? (fun s => s.id == p.shortlist_id) = none)
    (hnp : st.shortlist_items.find? (pairMatch p.shortlist_id p.contractor_id) = none) :
    addToShortlist st p now =
      (Except.error (DbError.fkViolation "shortlist_items_shortlist_id_fkey"), st) ∧
    (∀ m : String, (addToShortlist st p now).1 ≠ Except.ok (AddOutcome.errObj m)) := by
  rcases hfc : st.contractors.find? (fun c => c.id == p.contractor_id) with _ | c
  · rw [hfc] at hc; simp at hc
  · have hnone : (st.shortlists.find? (fun s => s.id == p.shortlist_id)).isNone = true := by
      rw [hsl]; rfl
    have heq : addToShortlist st p now =
        (Except.error (DbError.fkViolation "shortlist_items_shortlist_id_fkey"), st) := by
      simp only [addToShortlist, hfc, hnp, hnone, if_true]
    exact ⟨heq, fun m => by rw [heq]; simp⟩

/-- C10 witness: the demo store has contractor c1 and no shortlist named
`missing`; the call faults with the foreign-key violation and leaves the
store unchanged. -/
theorem c10_addToShortlist_fk_fault_witness :
    addToShortlist stDemo { shortlist_id := "missing", contractor_id := "c1" } 5 =
      (Except.error (DbError.fkViolation "shortlist_items_shortlist_id_fkey"), stDemo) :=
  (c10_addToShortlist_fk_fault stDemo { shortlist_id := "missing", contractor_id := "c1" } 5
    (by decide) (by decide) (by decide)).1

/-- C2: after `bookContractor` succeeds for an existing contractor (and,
when a shortlist reference is supplied, an existing shortlist, so the
foreign key holds), the booked contractor has availability
`unavailable`, every shortlist item for the supplied (shortlist,
contractor) pair has status `accepted`, and an engagement referencing the
contractor exists with status `confirmed`; with no shortlist reference,
the shortlist items are untouched while the other two postconditions
still hold. -/
theorem c2_booking_side_effects (st : Store) (p : BookParams) (now : Int)
    (hc : (st.contractors.find? (fun c => c.id == p.contractor_id)).isSome = true)
    (hfk : (match jsStrOrNull p.shortlist_id with
            | some sid => (st.shortlists.find? (fun s => s.id == sid)).isSome
            | none => true) = true) :
    (∃ e nm em msg, (bookContractor st p now).1 = Except.ok (BookOutcome.ok e nm em msg) ∧
      e.contractor_id = p.contractor_id ∧ e.status = "confirmed") ∧
    (∃ c ∈ (bookContractor st p now).2.contractors,
      c.id = p.contractor_id ∧ c.availability = "unavailable") ∧
    (∀ c ∈ (bookContractor st p now).2.contractors,
      c.id = p.contractor_id → c.availability = "unavailable") ∧
    ((bookContractor st p now).2.engagements =
      st.engagements ++ [bookEngagement st p now] ∧
      (bookEngagement st p now).contractor_id = p.contractor_id ∧
      (bookEngagement st p now).status = "confirmed") ∧
    (∀ sid, p.shortlist_id = some sid → sid ≠ "" →
      ∀ it ∈ (bookContractor st p now).2.shortlist_items,
        it.shortlist_id = sid → it.contractor_id = p.contractor_id →
          it.status = "accepted") ∧
    (p.shortlist_id = none →
      (bookContractor st p now).2.shortlist_items = st.shortlist_items) := by
  rcases hfc : st.contractors.find? (fun c => c.id == p.contractor_id) with _ | c
  · rw [hfc] at hc; simp at hc
  · have hcond : ((match jsStrOrNull p.shortlist_id with
        | some sid => (st.shortlists.find? (fun s => s.id == sid)).isNone
        | none => false : Bool)) = false := by
      rcases hj : jsStrOrNull p.shortlist_id with _ | sid
      · rfl
      · rw [hj] at hfk
        have hfk2 : (st.shortlists.find? (fun s => s.id == sid)).isSome = true := hfk
        show (st.shortlists.find? (fun s => s.id == sid)).isNone = false
        rcases hx : st.shortlists.find? (fun s => s.id == sid) with _ | s
        · rw [hx] at hfk2; simp at hfk2
        · rw [hx]; rfl
    have hcontr : (bookContractor st p now).2.contractors =
        st.contractors.map (fun x =>
          if x.id == p.contractor_id then { x with availability := "unavailable" } else x) := by
      simp only [bookContractor, hfc, hcond, Bool.false_eq_true, if_false]
      by_cases hopt : optStrTruthy p.shortlist_id = true <;> simp [hopt]
    have hengs : (bookContractor st p now).2.engagements =
        st.engagements ++ [bookEngagement st p now] := by
      simp only [bookContractor, hfc, hcond, Bool.false_eq_true, if_false]
      by_cases hopt : optStrTruthy p.shortlist_id = true <;> simp [hopt]
    have hout : (bookContractor st p now).1 = Except.ok (BookOutcome.ok
        (bookEngagement st p now) c.name c.email
        (c.name ++ " has been booked for " ++ p.role_title ++
          ". Their availability has been updated to unavailable.")) := by
      simp only [bookContractor, hfc, hcond, Bool.false_eq_true, if_false]
    have hcmem : c ∈ st.contractors := List.mem_of_find?_eq_some hfc
    have hcid : (c.id == p.contractor_id) = true := by
      simpa using List.find?_some hfc
    refine ⟨⟨bookEngagement st p now, c.name, c.email, _, hout, rfl, rfl⟩, ?_, ?_, ⟨hengs, rfl, rfl⟩, ?_, ?_⟩
    · rw [hcontr]
      refine ⟨{ c with availability := "unavailable" }, ?_, eq_of_beq hcid, rfl⟩
      have h1 : (fun x => if (x.id == p.contractor_id) = true then
          { x with availability := "unavailable" } else x) c
          = { c with availability := "unavailable" } := if_pos hcid
      rw [← h1]
      exact List.mem_map_of_mem _ hcmem
    · rw [hcontr]
      intro r hr hrid
      rcases List.mem_map.mp hr with ⟨x, hx, hfx⟩
      by_cases hxid : (x.id == p.contractor_id) = true
      · rw [← hfx, if_pos hxid]
      · rw [← hfx, if_neg (by simp [hxid])] at hrid ⊢
        exact absurd (by simp [hrid]) hxid
    · intro sid hsid hne it hit hitsl hitc
      have hopt : optStrTruthy p.shortlist_id = true := by
        rw [hsid]
        show (sid != "") = true
        simpa using hne
      have hitems : (bookContractor st p now).2.shortlist_items =
          st.shortlist_items.map (fun it =>
            if pairMatch (p.shortlist_id.getD "") p.contractor_id it then
              { it with status := "accepted", updated_at := now }
            else it) := by
        simp only [bookContractor, hfc, hcond, Bool.false_eq_true, if_false, hopt, if_true]
      rw [hitems] at hit
      rcases List.mem_map.mp hit with ⟨x, hx, hfx⟩
      have hgd : p.shortlist_id.getD "" = sid := by rw [hsid]; rfl
      by_cases hpm : pairMatch (p.shortlist_id.getD "") p.contractor_id x = true
      · rw [← hfx, if_pos hpm]
      · rw [← hfx, if_neg (by simp [hpm])] at hitsl hitc
        have : pairMatch (p.shortlist_id.getD "") p.contractor_id x = true := by
          simp only [pairMatch, hgd, Bool.and_eq_true, beq_iff_eq]
          exact ⟨hitsl, hitc⟩
        exact absurd this hpm
    · intro hnone
      have hopt : optStrTruthy p.shortlist_id = false := by rw [hnone]; rfl
      simp only [bookContractor, hfc, hcond, Bool.false_eq_true, if_false, hopt, if_false]

/-- C2 witness: booking contractor c1 against shortlist sl1 on the demo
store marks c1 unavailable. -/
theorem c2_booking_side_effects_witness :
    ∃ c ∈ (bookContractor stDemo
      { contractor_id := "c1", role_title := "Lead Auditor", shortlist_id := some "sl1" } 9).2.contractors,
      c.id = "c1" ∧ c.availability = "unavailable" :=
  (c2_booking_side_effects stDemo
    { contractor_id := "c1", role_title := "Lead Auditor", shortlist_id := some "sl1" } 9
    (by decide) (by decide)).2.1

/-- After a non-faulting upsert, exactly one shortlist item exists for the
pair, carrying the (falsy-normalized) notes of this call; contractors and
shortlists are untouched and the row is returned. -/
theorem addToShortlist_single (st : Store) (p : AddParams) (now : Int)
    (hc : (st.contractors.find? (fun c => c.id == p.contractor_id)).isSome = true)
    (hsl : (st.shortlists.find? (fun s => s.id == p.shortlist_id)).isSome = true)
    (huniq : (st.shortlist_items.filter (pairMatch p.shortlist_id p.contractor_id)).length ≤ 1) :
    ∃ item nm tl,
      (addToShortlist st p now).1 = Except.ok (AddOutcome.ok item nm tl) ∧
      (addToShortlist st p now).2.shortlist_items.filter
        (pairMatch p.shortlist_id p.contractor_id) = [item] ∧
      item.notes = jsStrOrNull p.notes ∧
      (addToShortlist st p now).2.contractors = st.contractors ∧
      (addToShortlist st p now).2.shortlists = st.shortlists := by
  rcases hfc : st.contractors.find? (fun c => c.id == p.contractor_id) with _ | c
  · rw [hfc] at hc; simp at hc
  · rcases hfi : st.shortlist_items.find? (pairMatch p.shortlist_id p.contractor_id) with _ | old
    · have hslne : (st.shortlists.find? (fun s => s.id == p.shortlist_id)).isNone = false := by
        rcases hx : st.shortlists.find? (fun s => s.id == p.shortlist_id) with _ | s
        · rw [hx] at hsl; simp at hsl
        · rw [hx]; rfl
      have hfilnil : st.shortlist_items.filter (pairMatch p.shortlist_id p.contractor_id) = [] :=
        List.filter_eq_nil_iff.mpr (by
          intro a ha
          have h0 := List.find?_eq_none.mp hfi a ha
          simpa using h0)
      refine ⟨⟨"si-" ++ natRender st.shortlist_items.length, p.shortlist_id,
        p.contractor_id, jsStrOrNull p.notes, "shortlisted", now, now⟩,
        c.name, c.title, ?_, ?_, rfl, ?_, ?_⟩
      · simp only [addToShortlist, hfc, hfi, hslne, Bool.false_eq_true, if_false]
      · simp only [addToShortlist, hfc, hfi, hslne, Bool.false_eq_true, if_false]
        rw [List.filter_append, hfilnil]
        simp [pairMatch]
      · simp only [addToShortlist, hfc, hfi, hslne, Bool.false_eq_true, if_false]
      · simp only [addToShortlist, hfc, hfi, hslne, Bool.false_eq_true, if_false]
    · have hqold : pairMatch p.shortlist_id p.contractor_id old = true := List.find?_some hfi
      have hfilter1 : st.shortlist_items.filter (pairMatch p.shortlist_id p.contractor_id)
          = [old] := singleton_filter_of_find?_le_one _ _ _ hfi huniq
      have hqupd : pairMatch p.shortlist_id p.contractor_id
          { old with notes := jsStrOrNull p.notes, updated_at := now } = true := hqold
      refine ⟨{ old with notes := jsStrOrNull p.notes, updated_at := now }, c.name, c.title,
        ?_, ?_, rfl, ?_, ?_⟩
      · simp only [addToShortlist, hfc, hfi]
      · simp only [addToShortlist, hfc, hfi]
        rw [filter_map_replace _ _ hqupd, hfilter1]
        rfl
      · simp only [addToShortlist, hfc, hfi]
      · simp only [addToShortlist, hfc, hfi]

/-- C6 counterexample: re-adding the pair with notes given as the empty
string stores NULL notes (`x || null` normalizes falsy notes), so the
stored notes do not equal the literal second-call notes value. -/
theorem c6_empty_notes_counterexample :
    ((addToShortlist
        (addToShortlist stDemo { shortlist_id := "sl1", contractor_id := "c1", notes := some "a" } 1).2
        { shortlist_id := "sl1", contractor_id := "c1", notes := some "" } 2).2.shortlist_items.filter
      (pairMatch "sl1" "c1")).map ShortlistItem.notes = [none] ∧
    some "" ≠ (none : Option String) :=
  ⟨by decide, by decide⟩

/-- C6 as amended: calling `addToShortlist` twice for the same
(shortlist, contractor) pair with an existing contractor and shortlist
leaves exactly one item for the pair, whose notes are the second call
notes value normalized by JS truthiness (`notes || null`: empty or absent
becomes NULL); the second call returns the upserted row, never a
duplicate error. -/
theorem c6_upsert_idempotent (st : Store) (sid cid : String) (n1 n2 : Option String)
    (t1 t2 : Int)
    (hc : (st.contractors.find? (fun c => c.id == cid)).isSome = true)
    (hsl : (st.shortlists.find? (fun s => s.id == sid)).isSome = true)
    (huniq : (st.shortlist_items.filter (pairMatch sid cid)).length ≤ 1) :
    (∃ item nm tl,
      (addToShortlist (addToShortlist st ⟨sid, cid, n1⟩ t1).2 ⟨sid, cid, n2⟩ t2).1 =
        Except.ok (AddOutcome.ok item nm tl)) ∧
    ((addToShortlist (addToShortlist st ⟨sid, cid, n1⟩ t1).2
        ⟨sid, cid, n2⟩ t2).2.shortlist_items.filter (pairMatch sid cid)).length = 1 ∧
    (∀ it ∈ (addToShortlist (addToShortlist st ⟨sid, cid, n1⟩ t1).2
        ⟨sid, cid, n2⟩ t2).2.shortlist_items.filter (pairMatch sid cid),
      it.notes = jsStrOrNull n2) := by
  obtain ⟨i1, nm1, tl1, -, hfil1, -, hcon1, hshl1⟩ :=
    addToShortlist_single st ⟨sid, cid, n1⟩ t1 hc hsl huniq
  have hc2 : ((addToShortlist st ⟨sid, cid, n1⟩ t1).2.contractors.find?
      (fun c => c.id == cid)).isSome = true := by rw [hcon1]; exact hc
  have hsl2 : ((addToShortlist st ⟨sid, cid, n1⟩ t1).2.shortlists.find?
      (fun s => s.id == sid)).isSome = true := by rw [hshl1]; exact hsl
  have huniq2 : ((addToShortlist st ⟨sid, cid, n1⟩ t1).2.shortlist_items.filter
      (pairMatch sid cid)).length ≤ 1 := by rw [hfil1]; exact le_refl 1
  obtain ⟨i2, nm2, tl2, hout2, hfil2, hnotes2, -, -⟩ :=
    addToShortlist_single (addToShortlist st ⟨sid, cid, n1⟩ t1).2 ⟨sid, cid, n2⟩ t2
      hc2 hsl2 huniq2
  refine ⟨⟨i2, nm2, tl2, hout2⟩, ?_, ?_⟩
  · rw [hfil2]; rfl
  · intro it hit
    rw [hfil2] at hit
    simp only [List.mem_singleton] at hit
    rw [hit]
    exact hnotes2

/-- C6 witness: on the demo store, two upserts for (sl1, c1) with
different notes leave exactly one item for the pair. -/
theorem c6_upsert_idempotent_witness :
    ((addToShortlist (addToShortlist stDemo ⟨"sl1", "c1", some "a"⟩ 1).2
        ⟨"sl1", "c1", some "b"⟩ 2).2.shortlist_items.filter (pairMatch "sl1" "c1")).length = 1 :=
  (c6_upsert_idempotent stDemo "sl1" "c1" (some "a") (some "b") 1 2
    (by decide) (by decide) (by decide)).2.1
